import Mathlib

/-!
Verification development for the Miff-puzzle-phaser repository.

Two components are embedded:

* the jigsaw piece layout / shape generator
  (`src/brain-ui-v3/js/puzzle-shapes.js`, first class in the file), and
* the explosion / reveal sequencer of the latest variant
  (`src/brain-ui-v12/js/viewer.js`).

Modelling conventions:

* JS numbers are modelled as exact rationals (`ℚ`).  The claims under
  scrutiny are about the algorithms (clamping, ordering, restoration,
  complementarity), none of which hinge on double rounding, so arithmetic
  is modelled exactly.
* `Math.PI`, `Math.sin`, `Math.cos` are host-supplied doubles / functions;
  every double is a rational, so they are modelled as an arbitrary
  parameter structure `JsMath`.
* Each `Math.random()` draw is modelled by an oracle function supplied as
  a parameter; theorems quantify over all oracles, which covers every
  possible stream of draws.
* DOM chrome (info panel, sliders, canvas rendering) and the camera are
  out of scope of the embedded state, mirroring the spec's scope section.
-/

namespace PuzzleShapes

/-- Edge kinds of a puzzle piece: the JS strings `'straight'`, `'tab'`,
`'blank'` (puzzle-shapes.js:25). -/
inductive EdgeKind where
| straight : EdgeKind
| tab : EdgeKind
| blank : EdgeKind
deriving DecidableEq, Repr

/-- A piece descriptor as built by `generateShapes` (puzzle-shapes.js:21-30).
After generation every edge field is one of the three edge kinds (the `null`
placeholders of the JS object literal are always overwritten before the piece
is pushed). -/
structure Piece where
row : ℕ
col : ℕ
index : ℕ
top : EdgeKind
right : EdgeKind
bottom : EdgeKind
left : EdgeKind
deriving DecidableEq, Repr

/-- Right edge of the piece at `(row, col)` (puzzle-shapes.js:27,44-46):
`'straight'` when `col === cols - 1`, otherwise the random draw
`Math.random() > 0.5 ? 'tab' : 'blank'`; `randR row col` is that draw. -/
def pieceRight (cols : ℕ) (randR : ℕ → ℕ → Bool) (row col : ℕ) : EdgeKind :=
if col = cols - 1 then .straight else if randR row col then .tab else .blank

/-- Bottom edge of the piece at `(row, col)` (puzzle-shapes.js:28,47-49). -/
def pieceBottom (rows : ℕ) (randB : ℕ → ℕ → Bool) (row col : ℕ) : EdgeKind :=
if row = rows - 1 then .straight else if randB row col then .tab else .blank

/-- Left edge (puzzle-shapes.js:29,33-36): `'straight'` when `col === 0`,
otherwise `leftPiece.right === 'tab' ? 'blank' : 'tab'` where `leftPiece` is
`shapes[row * cols + col - 1]`, i.e. the already-pushed piece at
`(row, col - 1)`; its `right` field is exactly `pieceRight cols randR row
(col - 1)`. -/
def pieceLeft (cols : ℕ) (randR : ℕ → ℕ → Bool) (row col : ℕ) : EdgeKind :=
if col = 0 then .straight
else if pieceRight cols randR row (col - 1) = .tab then .blank else .tab

/-- Top edge (puzzle-shapes.js:26,38-41): `'straight'` when `row === 0`,
otherwise the complement of `shapes[(row - 1) * cols + col].bottom`. -/
def pieceTop (rows : ℕ) (randB : ℕ → ℕ → Bool) (row col : ℕ) : EdgeKind :=
if row = 0 then .straight
else if pieceBottom rows randB (row - 1) col = .tab then .blank else .tab

/-- The piece object built for `(row, col)` in the loop body
(puzzle-shapes.js:21-51). -/
def mkPiece (rows cols : ℕ) (randR randB : ℕ → ℕ → Bool) (row col : ℕ) :
    Piece :=
{ row := row
  col := col
  index := row * cols + col
  top := pieceTop rows randB row col
  right := pieceRight cols randR row col
  bottom := pieceBottom rows randB row col
  left := pieceLeft cols randR row col }

/-- `generateShapes` (puzzle-shapes.js:15-54): the double loop pushes pieces
in row-major order, so the list element at flat index `i` is the piece of
`(i / cols, i % cols)`.  The in-loop lookups of the already-pushed left and
upper neighbours are folded into `pieceLeft` / `pieceTop` above. -/
def generateShapes (rows cols : ℕ) (randR randB : ℕ → ℕ → Bool) :
    List Piece :=
(List.range (rows * cols)).map fun i =>
  mkPiece rows cols randR randB (i / cols) (i % cols)

/-- The `PuzzleShapeGenerator` object: the constructor
(puzzle-shapes.js:8-13) stores `rows`, `cols` and the generated `shapes`
array.  It performs no validation of the dimensions and cannot throw. -/
structure PuzzleShapeGenerator where
rows : ℕ
cols : ℕ
shapes : List Piece
deriving DecidableEq, Repr

/-- `new PuzzleShapeGenerator(rows, cols)` (puzzle-shapes.js:8-13). -/
def PuzzleShapeGenerator.make (rows cols : ℕ)
    (randR randB : ℕ → ℕ → Bool) : PuzzleShapeGenerator :=
{ rows := rows, cols := cols, shapes := generateShapes rows cols randR randB }

/-- `getPieceData` (puzzle-shapes.js:189-191): a plain array access;
out-of-range indices yield `undefined`, modelled as `none`. -/
def getPieceData (g : PuzzleShapeGenerator) (pieceIndex : ℕ) : Option Piece :=
g.shapes[pieceIndex]?

/-- A 2D point with rational coordinates. -/
structure Pt where
x : ℚ
y : ℚ
deriving DecidableEq, Repr

/-- SVG path commands as emitted by `generatePiecePath` and
`createEdgePath`: move, line, cubic curve, and close. -/
inductive PathCmd where
| M : Pt → PathCmd
| L : Pt → PathCmd
| C : Pt → Pt → Pt → PathCmd
| Z : PathCmd
deriving DecidableEq, Repr

/-- Edge direction tag: the JS `orientation` argument, either
`'horizontal'` or `'vertical'`. -/
inductive EdgeDir where
| horizontal : EdgeDir
| vertical : EdgeDir
deriving DecidableEq, Repr

/-- `Math.sqrt(dx*dx + dy*dy)` (puzzle-shapes.js:109) specialised to the
segments `generatePiecePath` actually passes: every call site is
axis-aligned (`dx = 0` or `dy = 0`), where the root is exactly
`|dx| + |dy|`; this closed form keeps the embedding inside `ℚ`. -/
def segLength (dx dy : ℚ) : ℚ :=
|dx| + |dy|

/-- `createEdgePath` (puzzle-shapes.js:106-155, the first class's version):
returns the command list for one tab/blank edge,
`L start C c1 c2 c3 C c4 c5 end L (x2, y2)`.  The unused local `tabWidth`
(line 122) is omitted. -/
def createEdgePath (x1 y1 x2 y2 : ℚ) (isTab : Bool) (tabSize : ℚ)
    (dir : EdgeDir) : List PathCmd :=
let dx := x2 - x1
let dy := y2 - y1
let length := segLength dx dy
let perpX : ℚ := match dir with
  | .horizontal => 0
  | .vertical => if isTab then 1 else -1
let perpY : ℚ := match dir with
  | .horizontal => if isTab then -1 else 1
  | .vertical => 0
let tabDepth := length * tabSize
let mid : ℚ := 1 / 2
let midX := x1 + dx * mid
let midY := y1 + dy * mid
let tabStart := mid - tabSize * (6 / 10)
let tabEnd := mid + tabSize * (6 / 10)
let xStart := x1 + dx * tabStart
let yStart := y1 + dy * tabStart
let xEnd := x1 + dx * tabEnd
let yEnd := y1 + dy * tabEnd
let c1x := xStart + perpX * tabDepth * (1 / 10)
let c1y := yStart + perpY * tabDepth * (1 / 10)
let c2x := midX - dx * (15 / 100) + perpX * tabDepth * (8 / 10)
let c2y := midY - dy * (15 / 100) + perpY * tabDepth * (8 / 10)
let c3x := midX + perpX * tabDepth
let c3y := midY + perpY * tabDepth
let c4x := midX + dx * (15 / 100) + perpX * tabDepth * (8 / 10)
let c4y := midY + dy * (15 / 100) + perpY * tabDepth * (8 / 10)
let c5x := xEnd + perpX * tabDepth * (1 / 10)
let c5y := yEnd + perpY * tabDepth * (1 / 10)
[ PathCmd.L ⟨xStart, yStart⟩,
  PathCmd.C ⟨c1x, c1y⟩ ⟨c2x, c2y⟩ ⟨c3x, c3y⟩,
  PathCmd.C ⟨c4x, c4y⟩ ⟨c5x, c5y⟩ ⟨xEnd, yEnd⟩,
  PathCmd.L ⟨x2, y2⟩ ]

/-- `generatePiecePath` (puzzle-shapes.js:60-101): looks the piece up in
`shapes`; `if (!piece) return ''` becomes the empty command list; otherwise
builds `M 0 0`, the four edges, and `Z`. -/
def generatePiecePath (shapes : List Piece) (pieceIndex : ℕ)
    (width height : ℚ) : List PathCmd :=
match shapes[pieceIndex]? with
| none => []
| some piece =>
  let tabSize : ℚ := 2 / 10
  [PathCmd.M ⟨0, 0⟩]
  ++ (if piece.top = .straight then [PathCmd.L ⟨width, 0⟩]
      else createEdgePath 0 0 width 0 (piece.top = .tab) tabSize .horizontal)
  ++ (if piece.right = .straight then [PathCmd.L ⟨width, height⟩]
      else createEdgePath width 0 width height (piece.right = .tab) tabSize
        .vertical)
  ++ (if piece.bottom = .straight then [PathCmd.L ⟨0, height⟩]
      else createEdgePath width height 0 height (piece.bottom = .tab) tabSize
        .horizontal)
  ++ (if piece.left = .straight then [PathCmd.L ⟨0, 0⟩]
      else createEdgePath 0 height 0 0 (piece.left = .tab) tabSize .vertical)
  ++ [PathCmd.Z]

/-- Endpoint of a drawing command (`Z` draws nothing new). -/
def cmdPoint : PathCmd → Option Pt
| .M p => some p
| .L p => some p
| .C _ _ p => some p
| .Z => none

/-- First point of a path: the endpoint of its leading command. -/
def pathStart (cmds : List PathCmd) : Option Pt :=
cmds.head?.bind cmdPoint

/-- Last endpoint reached by the drawing commands of a path (the pen
position just before a closing `Z`). -/
def lastPointBeforeClose (cmds : List PathCmd) : Option Pt :=
(cmds.filterMap cmdPoint).getLast?

end PuzzleShapes

namespace ViewerV12

/-- A triple of rational numbers: `THREE.Vector3` positions/scales and
`THREE.Euler` rotations are both modelled this way. -/
structure Vec3 where
x : ℚ
y : ℚ
z : ℚ
deriving DecidableEq, Repr

/-- Scale a vector componentwise (`multiplyScalar`). -/
def Vec3.smul (v : Vec3) (k : ℚ) : Vec3 :=
⟨v.x * k, v.y * k, v.z * k⟩

/-- `lerpVectors(a, b, t)`: componentwise `a + (b - a) * t`. -/
def Vec3.lerp (a b : Vec3) (t : ℚ) : Vec3 :=
⟨a.x + (b.x - a.x) * t, a.y + (b.y - a.y) * t, a.z + (b.z - a.z) * t⟩

/-- The host's `Math` constants and functions used by the viewer.  Every
JS double is a rational, so `pi` is the double `Math.PI` and `sin`/`cos`
are the host's double functions, all left abstract. -/
structure JsMath where
pi : ℚ
sin : ℚ → ℚ
cos : ℚ → ℚ

/-- The per-piece animation record stored on `piece.userData.animation`
(viewer.js:1322-1334 for the clicked piece, 1357-1367 for normal pieces).
`isClickedPiece` is absent (hence falsy) on normal records, modelled as
`false`; `targetScale` exists only on the clicked-piece record, modelled as
an `Option`. -/
structure AnimRecord where
startTime : ℚ
duration : ℚ
originalDuration : ℚ
isClickedPiece : Bool
startPos : Vec3
startRot : Vec3
targetPos : Vec3
targetRot : Vec3
startScale : Vec3
targetScale : Option Vec3
deriving DecidableEq, Repr

/-- A jigsaw piece mesh together with the `userData` fields the sequencer
touches (viewer.js:1183-1197).  `opacity` is `piece.material.opacity`
(`THREE.Material` defaults it to `1`); the `original*` fields are the
clones captured at creation (viewer.js:1188-1190). -/
structure PieceObj where
position : Vec3
rotation : Vec3
scale : Vec3
opacity : ℚ
visible : Bool
originalPosition : Vec3
originalRotation : Vec3
originalScale : Vec3
animation : Option AnimRecord
deriving DecidableEq, Repr

/-- The `userData.greenMelt` record (viewer.js:1397-1402). -/
structure GreenMelt where
startPos : Vec3
originalOpacity : ℚ
deriving DecidableEq, Repr

/-- A green-overlay mesh (viewer.js:562-566): shader material whose
`uniforms.opacity.value` starts at `0.85`.  `rotation` and `scale` are
carried along; no modelled code path ever mutates them. -/
structure GreenMesh where
position : Vec3
rotation : Vec3
scale : Vec3
opacityUniform : ℚ
visible : Bool
greenMelt : Option GreenMelt
deriving DecidableEq, Repr

/-- The `userData.matrixAnim` record (viewer.js:1418-1425). -/
structure MatrixAnim where
startPos : Vec3
startRot : Vec3
angle : ℚ
speed : ℚ
rotSpeed : ℚ
delay : ℚ
deriving DecidableEq, Repr

/-- A matrix-overlay mesh (viewer.js:582-586): basic material with
`opacity: 0.9`.  `rotation` and `scale` are never mutated by the modelled
code paths. -/
structure MatrixMesh where
position : Vec3
rotation : Vec3
scale : Vec3
opacity : ℚ
visible : Bool
matrixAnim : Option MatrixAnim
deriving DecidableEq, Repr

/-- The two stage-transition one-shot timers scheduled by
`explodeAllPieces` (viewer.js:1380-1387).  The 500ms info-panel timer only
touches DOM chrome and is out of scope. -/
inductive TimerAction where
| greenFade : TimerAction
| matrixExplode : TimerAction
deriving DecidableEq, Repr

/-- A pending `setTimeout` callback: absolute fire time plus its action. -/
structure Timer where
fireAt : ℚ
action : TimerAction
deriving DecidableEq, Repr

/-- The viewer state the sequencer reads and writes: the three stage flags
(`idle` is all three false), the stage start clocks, the speed multiplier
(initially `0.6`, viewer.js:29), the object lists, the pending timers and
`this.clickedPiece`. -/
structure ViewerState where
puzzleExploded : Bool
matrixExploding : Bool
greenMelting : Bool
greenMeltStart : ℚ
matrixExplodeStart : ℚ
explosionSpeedMultiplier : ℚ
jigsawPieces : List PieceObj
greenOverlay : List GreenMesh
matrixOverlay : List MatrixMesh
timers : List Timer
clickedPiece : Option ℕ
deriving DecidableEq, Repr

/-- The clicked-piece "feature" animation record (viewer.js:1322-1334). -/
def clickedAnimRecord (now cameraZ mult : ℚ) (p : PieceObj) : AnimRecord :=
{ startTime := now
  duration := 4000 / mult
  originalDuration := 4000
  isClickedPiece := true
  startPos := p.position
  startRot := p.rotation
  targetPos := ⟨0, 0, cameraZ - 2⟩
  targetRot := ⟨0, 0, 0⟩
  startScale := p.scale
  targetScale := some (p.scale.smul 20) }

/-- The normal outward-explosion record for the piece at `forEach` index
`i` (viewer.js:1344-1367).  `rand i k` is the k-th `Math.random()` draw of
that loop iteration (angle, speed, z, rotX, rotY, rotZ in draw order). -/
def normalAnimRecord (M : JsMath) (rand : ℕ → ℕ → ℚ) (now mult : ℚ)
    (i : ℕ) (p : PieceObj) : AnimRecord :=
let angle := rand i 0 * M.pi * 2
let speed := 12 + rand i 1 * 8
let targetX := M.cos angle * speed
let targetY := M.sin angle * speed
let targetZ := (rand i 2 - 1 / 2) * speed * (12 / 10)
let rotX := (rand i 3 - 1 / 2) * 15
let rotY := (rand i 4 - 1 / 2) * 15
let rotZ := (rand i 5 - 1 / 2) * 15
{ startTime := now + (i * 50 : ℚ) / mult
  duration := 2500 / mult
  originalDuration := 2500
  isClickedPiece := false
  startPos := p.position
  startRot := p.rotation
  targetPos := (Vec3.mk targetX targetY targetZ).smul mult
  targetRot := ⟨rotX, rotY, rotZ⟩
  startScale := p.scale
  targetScale := none }

/-- The `jigsawPieces.forEach((piece, index) => ...)` body of
`explodeAllPieces` (viewer.js:1315-1368): the piece identical to
`clickedPiece` gets the feature record, every other piece a fresh random
outward record.  The JS identity test `piece === clickedPiece` becomes an
index comparison. -/
def assignAnimations (M : JsMath) (rand : ℕ → ℕ → ℚ) (now cameraZ mult : ℚ)
    (clicked : Option ℕ) : ℕ → List PieceObj → List PieceObj
| _, [] => []
| i, p :: ps =>
  (if clicked = some i then
    { p with animation := some (clickedAnimRecord now cameraZ mult p) }
  else
    { p with animation := some (normalAnimRecord M rand now mult i p) })
  :: assignAnimations M rand now cameraZ mult clicked (i + 1) ps

/-- `explodeAllPieces(clickedPiece = null)` (viewer.js:1305-1388):
idempotence guard on `puzzleExploded`, then stores `clickedPiece`, assigns
every piece an animation record, and schedules the green-fade timer at
`+3000 / mult` and the matrix-explosion timer at `+4500 / mult`
(the 500ms info-panel timer is DOM chrome, omitted). -/
def explodeAllPieces (M : JsMath) (rand : ℕ → ℕ → ℚ) (now cameraZ : ℚ)
    (clicked : Option ℕ) (s : ViewerState) : ViewerState :=
if s.puzzleExploded then s
else
  let mult := s.explosionSpeedMultiplier
  { s with
    puzzleExploded := true
    clickedPiece := clicked
    jigsawPieces := assignAnimations M rand now cameraZ mult clicked 0
      s.jigsawPieces
    timers := s.timers ++
      [⟨now + 3000 / mult, TimerAction.greenFade⟩,
       ⟨now + 4500 / mult, TimerAction.matrixExplode⟩] }

/-- `handleClick` (viewer.js:1284-1303): guard on `puzzleExploded`,
raycast (modelled by the `hit` argument: the index of the nearest piece
hit, if any), and — when something was hit — a call of
`explodeAllPieces()` with NO argument, so the hit piece itself is not
passed on (viewer.js:1299-1302). -/
def handleClick (M : JsMath) (rand : ℕ → ℕ → ℚ) (now cameraZ : ℚ)
    (hit : Option ℕ) (s : ViewerState) : ViewerState :=
if s.puzzleExploded then s
else
  match hit with
  | some _ => explodeAllPieces M rand now cameraZ none s
  | none => s

/-- `startGreenOverlayFade` (viewer.js:1390-1404): unconditionally sets
`greenMelting`, records the clock, and captures a `greenMelt` record on
each mesh that has none (the meshes are shader materials, so
`originalOpacity` is the literal `0.85` branch of line 1400). -/
def startGreenOverlayFade (now : ℚ) (s : ViewerState) : ViewerState :=
{ s with
  greenMelting := true
  greenMeltStart := now
  greenOverlay := s.greenOverlay.map fun m =>
    match m.greenMelt with
    | some _ => m
    | none => { m with greenMelt := some ⟨m.position, 85 / 100⟩ } }

/-- The `matrixOverlay.forEach((mesh, index) => ...)` body of
`startMatrixExplosion` (viewer.js:1412-1426); `randM i k` is the k-th
`Math.random()` draw of iteration `i` (spiral speed, then rotation). -/
def assignMatrixAnims (M : JsMath) (randM : ℕ → ℕ → ℚ) :
    ℕ → List MatrixMesh → List MatrixMesh
| _, [] => []
| i, m :: ms =>
  { m with matrixAnim := some (
      { startPos := m.position
        startRot := m.rotation
        angle := (i * (1375 / 10) : ℚ) * (M.pi / 180)
        speed := 8 + randM i 0 * 4
        rotSpeed := (randM i 1 - 1 / 2) * 20
        delay := i * 30 } : MatrixAnim) }
  :: assignMatrixAnims M randM (i + 1) ms

/-- `startMatrixExplosion` (viewer.js:1406-1427): unconditionally sets
`matrixExploding`, records the clock, and stores a golden-angle spiral
record on every matrix mesh. -/
def startMatrixExplosion (M : JsMath) (randM : ℕ → ℕ → ℚ) (now : ℚ)
    (s : ViewerState) : ViewerState :=
{ s with
  matrixExploding := true
  matrixExplodeStart := now
  matrixOverlay := assignMatrixAnims M randM 0 s.matrixOverlay }

/-- Firing one of the pending one-shot timers at wall-clock `now`: the
timer is consumed and its callback body runs.  Neither callback checks the
current stage before acting. -/
def fireTimer (M : JsMath) (randM : ℕ → ℕ → ℚ) (t : Timer) (now : ℚ)
    (s : ViewerState) : ViewerState :=
let s1 := { s with timers := s.timers.erase t }
match t.action with
| .greenFade => startGreenOverlayFade now s1
| .matrixExplode => startMatrixExplosion M randM now s1

/-- The progress computation of the per-frame update (viewer.js:1563):
`Math.min(elapsed / anim.duration, 1)`.  The lower clamp was deliberately
removed (line 1556: `REMOVED: if (elapsed < 0) return;`). -/
def animProgress (startTime duration now : ℚ) : ℚ :=
min ((now - startTime) / duration) 1

/-- The spec's derived progress, `clamp((now - startTime) / duration, 0, 1)`
(spec.md section 3, AnimatedObject).  Stated from the spec's words for
comparison with `animProgress`. -/
def specProgress (startTime duration now : ℚ) : ℚ :=
max 0 (min ((now - startTime) / duration) 1)

/-- Per-frame update of one piece (viewer.js:1551-1612): refresh the
duration from the current speed multiplier, derive `progress`, then either
the clicked-piece feature branch (float toward camera, wobble rotation via
`Math.sin`/`Math.cos`, scale up, opacity pinned to 1, never hidden) or the
normal branch (eased flight, fade-and-shrink after half progress, hidden at
progress 1). -/
def updatePiece (M : JsMath) (mult now : ℚ) (p : PieceObj) : PieceObj :=
match p.animation with
| none => p
| some anim0 =>
  let anim := if anim0.originalDuration ≠ 0 ∧
      anim0.duration ≠ anim0.originalDuration / mult then
    { anim0 with duration := anim0.originalDuration / mult }
  else anim0
  let elapsed := now - anim.startTime
  let progress := animProgress anim.startTime anim.duration now
  if anim.isClickedPiece then
    let easeOut := 1 - (1 - progress) ^ 2
    let scaleProgress := min (progress * (12 / 10)) 1
    { p with
      animation := some anim
      position := Vec3.lerp anim.startPos anim.targetPos easeOut
      rotation := ⟨anim.startRot.x + M.sin (elapsed * (1 / 1000)) * (2 / 10),
                   anim.startRot.y + M.cos (elapsed * (8 / 10000)) * (2 / 10),
                   anim.startRot.z + M.sin (elapsed * (12 / 10000)) * (1 / 10)⟩
      scale := Vec3.lerp anim.startScale (anim.targetScale.getD anim.startScale)
        scaleProgress
      opacity := 1 }
  else
    let easeOut := 1 - (1 - progress) ^ 3
    let fadeProgress := max 0 ((progress - 1 / 2) * 2)
    { p with
      animation := some anim
      position := Vec3.lerp anim.startPos anim.targetPos easeOut
      rotation := ⟨anim.startRot.x + anim.targetRot.x * easeOut,
                   anim.startRot.y + anim.targetRot.y * easeOut,
                   anim.startRot.z + anim.targetRot.z * easeOut⟩
      opacity := 1 - fadeProgress
      scale := anim.startScale.smul (1 - fadeProgress * (1 / 2))
      visible := if 1 ≤ progress then false else p.visible }

/-- Per-frame green-overlay fade (viewer.js:1514-1546): meshes with a
`greenMelt` record fade `originalOpacity * (1 - progress)` over
`2000 / mult` and are hidden at progress 1; the material's `transparent`
flag is render-only and omitted. -/
def updateGreenMesh (mult greenMeltStart now : ℚ) (m : GreenMesh) :
    GreenMesh :=
match m.greenMelt with
| none => m
| some anim =>
  let progress := min ((now - greenMeltStart) / (2000 / mult)) 1
  { m with
    opacityUniform := anim.originalOpacity * (1 - progress)
    visible := if 1 ≤ progress then false else m.visible }

/-- Per-frame matrix-overlay fade (viewer.js:1463-1477): a plain 3000ms
opacity fade; hidden at progress 1. -/
def updateMatrixMesh (matrixExplodeStart now : ℚ) (m : MatrixMesh) :
    MatrixMesh :=
let progress := min ((now - matrixExplodeStart) / 3000) 1
{ m with
  opacity := 1 - progress
  visible := if 1 ≤ progress then false else m.visible }

/-- One pass of the `animate` frame callback (viewer.js:1435-1621)
restricted to sequencer state: the matrix fade block, the green fade
block and the puzzle-piece block, each gated on its stage flag.  Shader
clock updates, drip lines, canvas textures, controls and rendering are
out of scope. -/
def animateFrame (M : JsMath) (now : ℚ) (s : ViewerState) : ViewerState :=
{ s with
  matrixOverlay := if s.matrixExploding then
      s.matrixOverlay.map (updateMatrixMesh s.matrixExplodeStart now)
    else s.matrixOverlay
  greenOverlay := if s.greenMelting then
      s.greenOverlay.map (updateGreenMesh s.explosionSpeedMultiplier
        s.greenMeltStart now)
    else s.greenOverlay
  jigsawPieces := if s.puzzleExploded then
      s.jigsawPieces.map (updatePiece M s.explosionSpeedMultiplier now)
    else s.jigsawPieces }

/-- `restart` (viewer.js:1226-1282): clears the three stage flags,
restores the green overlay (visible, opacity uniform back to `0.85`,
position back to the captured `greenMelt.startPos` when present), the
matrix overlay (visible, opacity `0.9`) and every piece (visible,
animation record deleted, transform restored from the `original*` clones,
`material.opacity` back to `1`).  The camera reset and the info panel are
out of scope.  Note: the pending `setTimeout` timers are NOT touched. -/
def ViewerState.restart (s : ViewerState) : ViewerState :=
{ s with
  puzzleExploded := false
  matrixExploding := false
  greenMelting := false
  greenOverlay := s.greenOverlay.map fun m =>
    { m with
      visible := true
      opacityUniform := 85 / 100
      position := match m.greenMelt with
        | some gm => gm.startPos
        | none => m.position }
  matrixOverlay := s.matrixOverlay.map fun m =>
    { m with visible := true, opacity := 9 / 10 }
  jigsawPieces := s.jigsawPieces.map fun p =>
    { p with
      visible := true
      animation := none
      position := p.originalPosition
      rotation := p.originalRotation
      scale := p.originalScale
      opacity := 1 } }

/-- The explosion-speed slider handler (viewer.js:971-984): stores the new
multiplier and, when the explosion is running, rebases every in-flight
animation record (`originalDuration || duration` is JS truthiness,
modelled as a zero test). -/
def setSpeed (mult : ℚ) (s : ViewerState) : ViewerState :=
{ s with
  explosionSpeedMultiplier := mult
  jigsawPieces := if s.puzzleExploded then
      s.jigsawPieces.map fun p =>
        match p.animation with
        | none => p
        | some anim =>
          let od := if anim.originalDuration ≠ 0 then anim.originalDuration
            else anim.duration
          { p with animation := some (
              { anim with originalDuration := od, duration := od / mult }) }
    else s.jigsawPieces }

/-- Initial data for one puzzle piece: the transform its mesh is created
with (viewer.js:1183-1190). -/
structure PieceInit where
pos : Vec3
rot : Vec3
scale : Vec3
deriving DecidableEq, Repr

/-- Initial data for one overlay mesh (green or matrix). -/
structure OverlayInit where
pos : Vec3
rot : Vec3
scale : Vec3
deriving DecidableEq, Repr

/-- A freshly created piece mesh: `original*` clones equal the current
transform, shader-material opacity defaults to 1, visible, no animation
(viewer.js:1183-1197). -/
def initPiece (pi : PieceInit) : PieceObj :=
{ position := pi.pos
  rotation := pi.rot
  scale := pi.scale
  opacity := 1
  visible := true
  originalPosition := pi.pos
  originalRotation := pi.rot
  originalScale := pi.scale
  animation := none }

/-- A freshly created green-overlay mesh (viewer.js:517-566). -/
def initGreen (oi : OverlayInit) : GreenMesh :=
{ position := oi.pos
  rotation := oi.rot
  scale := oi.scale
  opacityUniform := 85 / 100
  visible := true
  greenMelt := none }

/-- A freshly created matrix-overlay mesh (viewer.js:572-586). -/
def initMatrix (oi : OverlayInit) : MatrixMesh :=
{ position := oi.pos
  rotation := oi.rot
  scale := oi.scale
  opacity := 9 / 10
  visible := true
  matrixAnim := none }

/-- The viewer state right after construction and overlay creation:
idle (all flags false), default speed multiplier `0.6` (viewer.js:29), no
timers, no clicked piece. -/
def mkInit (ps : List PieceInit) (gs ms : List OverlayInit) : ViewerState :=
{ puzzleExploded := false
  matrixExploding := false
  greenMelting := false
  greenMeltStart := 0
  matrixExplodeStart := 0
  explosionSpeedMultiplier := 6 / 10
  jigsawPieces := ps.map initPiece
  greenOverlay := gs.map initGreen
  matrixOverlay := ms.map initMatrix
  timers := []
  clickedPiece := none }

/-- The operations the surrounding page can interleave, as a reachability
relation: clicks, direct trigger calls, due timer callbacks, animation
frames, restarts and speed changes.  Each step carries its own oracle
arguments (fresh `Math.random()` draws, the host math functions, the
wall clock and the current camera depth). -/
inductive Reach : ViewerState → ViewerState → Prop
| refl (s : ViewerState) : Reach s s
| click (M : JsMath) (rand : ℕ → ℕ → ℚ) (now cameraZ : ℚ) (hit : Option ℕ)
    {s t : ViewerState} (h : Reach s t) :
    Reach s (handleClick M rand now cameraZ hit t)
| explode (M : JsMath) (rand : ℕ → ℕ → ℚ) (now cameraZ : ℚ)
    (clicked : Option ℕ) {s t : ViewerState} (h : Reach s t) :
    Reach s (explodeAllPieces M rand now cameraZ clicked t)
| timer (M : JsMath) (randM : ℕ → ℕ → ℚ) (tm : Timer) (now : ℚ)
    {s t : ViewerState} (hmem : tm ∈ t.timers) (hdue : tm.fireAt ≤ now)
    (h : Reach s t) : Reach s (fireTimer M randM tm now t)
| frame (M : JsMath) (now : ℚ) {s t : ViewerState} (h : Reach s t) :
    Reach s (animateFrame M now t)
| restartStep {s t : ViewerState} (h : Reach s t) :
    Reach s t.restart
| speed (mult : ℚ) {s t : ViewerState} (h : Reach s t) :
    Reach s (setSpeed mult t)

end ViewerV12

namespace PuzzleShapes

/-- A fixed oracle for concrete witnesses: every draw is `tab`. -/
def randTrue : ℕ → ℕ → Bool := fun _ _ => true

theorem generateShapes_length (rows cols : ℕ)
    (randR randB : ℕ → ℕ → Bool) :
    (generateShapes rows cols randR randB).length = rows * cols := by
  simp [generateShapes]

theorem generateShapes_get (rows cols : ℕ) (randR randB : ℕ → ℕ → Bool)
    (row col : ℕ) (hr : row < rows) (hc : col < cols) :
    (generateShapes rows cols randR randB)[row * cols + col]? =
      some (mkPiece rows cols randR randB row col) := by
  have hcols : 0 < cols := Nat.pos_of_ne_zero (by omega)
  have hidx : row * cols + col < rows * cols := by
    have h2 : (row + 1) * cols ≤ rows * cols := Nat.mul_le_mul_right _ hr
    have h3 : row * cols + col < (row + 1) * cols := by
      rw [Nat.succ_mul]; omega
    omega
  have hdiv : (row * cols + col) / cols = row := by
    rw [Nat.mul_comm row cols, Nat.mul_add_div hcols, Nat.div_eq_of_lt hc,
      Nat.add_zero]
  have hmod : (row * cols + col) % cols = col := by
    rw [Nat.mul_comm row cols, Nat.mul_add_mod, Nat.mod_eq_of_lt hc]
  simp [generateShapes, List.getElem?_range, hidx, hdiv, hmod]

/-- C1: for every grid built by the piece layout generator with
rows, cols ≥ 1 and every interior shared edge between horizontally or
vertically adjacent pieces, the two facing edge kinds are exactly
complementary: one is tab and the other is blank — never both tab, never
both blank, never independently randomized on both sides (the shared edge
is drawn once and the neighbour takes the complement). -/
theorem c1_edge_complementarity (rows cols : ℕ)
    (randR randB : ℕ → ℕ → Bool) (row col : ℕ)
    (hrow : row < rows) (hcol : col < cols) :
    (col + 1 < cols →
      ∃ p q : Piece,
        (generateShapes rows cols randR randB)[row * cols + col]? = some p ∧
        (generateShapes rows cols randR randB)[row * cols + (col + 1)]? =
          some q ∧
        ((p.right = EdgeKind.tab ∧ q.left = EdgeKind.blank) ∨
         (p.right = EdgeKind.blank ∧ q.left = EdgeKind.tab))) ∧
    (row + 1 < rows →
      ∃ p q : Piece,
        (generateShapes rows cols randR randB)[row * cols + col]? = some p ∧
        (generateShapes rows cols randR randB)[(row + 1) * cols + col]? =
          some q ∧
        ((p.bottom = EdgeKind.tab ∧ q.top = EdgeKind.blank) ∨
         (p.bottom = EdgeKind.blank ∧ q.top = EdgeKind.tab))) := by
  constructor
  · intro hc1
    refine ⟨_, _, generateShapes_get rows cols randR randB row col hrow hcol,
      generateShapes_get rows cols randR randB row (col + 1) hrow hc1, ?_⟩
    have hne : ¬ col = cols - 1 := by omega
    have hne2 : ¬ col + 1 = 0 := by omega
    simp only [mkPiece, pieceRight, pieceLeft, if_neg hne, if_neg hne2,
      Nat.add_sub_cancel]
    by_cases h : randR row col <;> simp [h]
  · intro hr1
    refine ⟨_, _, generateShapes_get rows cols randR randB row col hrow hcol,
      generateShapes_get rows cols randR randB (row + 1) col hr1 hcol, ?_⟩
    have hne : ¬ row = rows - 1 := by omega
    have hne2 : ¬ row + 1 = 0 := by omega
    simp only [mkPiece, pieceBottom, pieceTop, if_neg hne, if_neg hne2,
      Nat.add_sub_cancel]
    by_cases h : randB row col <;> simp [h]

/-- Witness for C1: the horizontal interior edge between pieces (0,0) and
(0,1) of a concrete 2×2 grid. -/
theorem c1_edge_complementarity_witness :
    (0 : ℕ) < 2 ∧ (0 : ℕ) + 1 < 2 ∧
    (∃ p q : Piece,
      (generateShapes 2 2 randTrue randTrue)[0 * 2 + 0]? = some p ∧
      (generateShapes 2 2 randTrue randTrue)[0 * 2 + (0 + 1)]? = some q ∧
      ((p.right = EdgeKind.tab ∧ q.left = EdgeKind.blank) ∨
       (p.right = EdgeKind.blank ∧ q.left = EdgeKind.tab))) :=
⟨by decide, by decide,
 (c1_edge_complementarity 2 2 randTrue randTrue 0 0 (by decide)
   (by decide)).1 (by decide)⟩

/-- C7 counterexample: the constructor performs no dimension validation.
`new PuzzleShapeGenerator(0, 5)` is not rejected — it returns a generator
whose stored `rows` is still 0 (no clamping to 1×1) and whose piece list
is empty; no error is raised anywhere (the constructor contains no check
and no throw, puzzle-shapes.js:8-13). -/
theorem c7_counterexample :
    (PuzzleShapeGenerator.make 0 5 randTrue randTrue).shapes = [] ∧
    (PuzzleShapeGenerator.make 0 5 randTrue randTrue).rows = 0 ∧
    (PuzzleShapeGenerator.make 0 5 randTrue randTrue).cols = 5 := by
  refine ⟨?_, rfl, rfl⟩
  decide

/-- C7 amended: constructing the generator with rows < 1 or cols < 1 is
NOT rejected — the constructor performs no validation and never raises an
InvalidDimensions error.  It stores the dimensions unchanged (so they are
indeed never clamped to 1×1) and produces rows*cols piece descriptors,
hence an empty piece set for invalid dimensions. -/
theorem c7_no_validation (rows cols : ℕ) (randR randB : ℕ → ℕ → Bool) :
    (PuzzleShapeGenerator.make rows cols randR randB).rows = rows ∧
    (PuzzleShapeGenerator.make rows cols randR randB).cols = cols ∧
    (PuzzleShapeGenerator.make rows cols randR randB).shapes.length =
      rows * cols ∧
    (rows = 0 ∨ cols = 0 →
      (PuzzleShapeGenerator.make rows cols randR randB).shapes = []) := by
  refine ⟨rfl, rfl, generateShapes_length rows cols randR randB, ?_⟩
  rintro (h | h) <;>
    simp [PuzzleShapeGenerator.make, generateShapes, h]

/-- Witness for C7 (amended) at rows = 0, cols = 3. -/
theorem c7_no_validation_witness :
    ((0 : ℕ) = 0 ∨ (3 : ℕ) = 0) ∧
    (PuzzleShapeGenerator.make 0 3 randTrue randTrue).shapes = [] :=
⟨Or.inl rfl,
 (c7_no_validation 0 3 randTrue randTrue).2.2.2 (Or.inl rfl)⟩

/-- C8 counterexample: on a 1×1 generator, querying piece index 5 (out of
range) is not rejected: `generatePiecePath` silently returns the empty
path (the JS code returns `''` after `if (!piece)`, puzzle-shapes.js:62)
and `getPieceData` silently returns `undefined` (modelled `none`,
puzzle-shapes.js:189-191); no IndexOutOfRange error exists in the code. -/
theorem c8_counterexample :
    generatePiecePath (PuzzleShapeGenerator.make 1 1 randTrue randTrue).shapes
      5 100 100 = [] ∧
    getPieceData (PuzzleShapeGenerator.make 1 1 randTrue randTrue) 5 =
      none := by
  constructor <;> decide

/-- C8 amended: for every piece index outside [0, number of pieces), the
queries are not rejected with an error: `generatePiecePath` silently
returns the empty path (the JS empty string) and `getPieceData` silently
returns `undefined`. -/
theorem c8_out_of_range_silent (g : PuzzleShapeGenerator) (i : ℕ)
    (h : g.shapes.length ≤ i) (width height : ℚ) :
    generatePiecePath g.shapes i width height = [] ∧
    getPieceData g i = none := by
  have hnone : g.shapes[i]? = none := by
    simp [List.getElem?_eq_none h]
  exact ⟨by simp [generatePiecePath, hnone], by simp [getPieceData, hnone]⟩

/-- Witness for C8 (amended): index 7 on a concrete 2×2 generator. -/
theorem c8_out_of_range_silent_witness :
    (PuzzleShapeGenerator.make 2 2 randTrue randTrue).shapes.length ≤ 7 ∧
    generatePiecePath
      (PuzzleShapeGenerator.make 2 2 randTrue randTrue).shapes 7 50 50 =
      [] ∧
    getPieceData (PuzzleShapeGenerator.make 2 2 randTrue randTrue) 7 =
      none :=
⟨by decide,
 (c8_out_of_range_silent (PuzzleShapeGenerator.make 2 2 randTrue randTrue) 7
   (by decide) 50 50).1,
 (c8_out_of_range_silent (PuzzleShapeGenerator.make 2 2 randTrue randTrue) 7
   (by decide) 50 50).2⟩

theorem filterMap_createEdgePath (x1 y1 x2 y2 : ℚ) (tb : Bool) (ts : ℚ)
    (dir : EdgeDir) :
    ((createEdgePath x1 y1 x2 y2 tb ts dir).filterMap cmdPoint).getLast? =
      some ⟨x2, y2⟩ := rfl

theorem lastPoint_append (l1 l2 : List PathCmd) (p : Pt)
    (h : lastPointBeforeClose l2 = some p) :
    lastPointBeforeClose (l1 ++ l2) = some p := by
  unfold lastPointBeforeClose at h ⊢
  have hne : l2.filterMap cmdPoint ≠ [] := by
    intro hnil
    rw [hnil] at h
    exact Option.noConfusion h
  rw [List.filterMap_append, List.getLast?_append_of_ne_nil _ hne]
  exact h

theorem lastPoint_edge_close (l : List PathCmd) (p : Pt)
    (h : (l.filterMap cmdPoint).getLast? = some p) :
    lastPointBeforeClose (l ++ [PathCmd.Z]) = some p := by
  unfold lastPointBeforeClose
  rw [List.filterMap_append,
    show ([PathCmd.Z].filterMap cmdPoint) = [] from rfl, List.append_nil]
  exact h

theorem generatePiecePath_closed_of_get (shapes : List Piece) (i : ℕ)
    (piece : Piece) (h : shapes[i]? = some piece) (width height : ℚ) :
    pathStart (generatePiecePath shapes i width height) = some ⟨0, 0⟩ ∧
    lastPointBeforeClose (generatePiecePath shapes i width height) =
      some ⟨0, 0⟩ := by
  constructor
  · unfold generatePiecePath
    rw [h]
    rfl
  · unfold generatePiecePath
    rw [h]
    simp only [List.append_assoc]
    apply lastPoint_append
    apply lastPoint_append
    apply lastPoint_append
    apply lastPoint_append
    by_cases hl : piece.left = EdgeKind.straight
    · rw [if_pos hl]
      exact lastPoint_edge_close _ _ rfl
    · rw [if_neg hl]
      exact lastPoint_edge_close _ _
        (filterMap_createEdgePath 0 height 0 0 _ _ _)

/-- C10: for every valid piece of every generated grid and any positive
width and height, the contour emitted by `generatePiecePath` is closed: it
starts at (0,0) and the last pen position before the closing `Z` command
is again (0,0), for every combination of straight/tab/blank edge kinds. -/
theorem c10_path_closed (rows cols : ℕ) (randR randB : ℕ → ℕ → Bool)
    (row col : ℕ) (hr : row < rows) (hc : col < cols)
    (width height : ℚ) (hw : 0 < width) (hh : 0 < height) :
    pathStart (generatePiecePath (generateShapes rows cols randR randB)
      (row * cols + col) width height) = some ⟨0, 0⟩ ∧
    lastPointBeforeClose
      (generatePiecePath (generateShapes rows cols randR randB)
        (row * cols + col) width height) = some ⟨0, 0⟩ :=
  generatePiecePath_closed_of_get _ _ _
    (generateShapes_get rows cols randR randB row col hr hc) width height

/-- Witness for C10: piece (0,0) of a concrete 1×1 grid with a 100×100
bounding box. -/
theorem c10_path_closed_witness :
    (0 : ℕ) < 1 ∧ (0 : ℚ) < 100 ∧
    pathStart (generatePiecePath (generateShapes 1 1 randTrue randTrue)
      (0 * 1 + 0) 100 100) = some ⟨0, 0⟩ ∧
    lastPointBeforeClose
      (generatePiecePath (generateShapes 1 1 randTrue randTrue)
        (0 * 1 + 0) 100 100) = some ⟨0, 0⟩ :=
⟨by decide, by norm_num,
 (c10_path_closed 1 1 randTrue randTrue 0 0 (by decide) (by decide) 100 100
   (by norm_num) (by norm_num)).1,
 (c10_path_closed 1 1 randTrue randTrue 0 0 (by decide) (by decide) 100 100
   (by norm_num) (by norm_num)).2⟩

end PuzzleShapes

namespace ViewerV12

/-- A fixed host-math instance for concrete witnesses (a rational stand-in
for the double `Math.PI` and constant trig stubs; all theorems quantify
over arbitrary `JsMath`, this one only instantiates them). -/
def m0 : JsMath :=
{ pi := 314159 / 100000, sin := fun _ => 0, cos := fun _ => 1 }

/-- A fixed random oracle for concrete witnesses: every draw is 1/2. -/
def rand0 : ℕ → ℕ → ℚ := fun _ _ => 1 / 2

/-- Two concrete pieces for witness states. -/
def samplePieces : List PieceInit :=
[⟨⟨0, 0, 0⟩, ⟨0, 0, 0⟩, ⟨1, 1, 1⟩⟩, ⟨⟨1, 0, 0⟩, ⟨0, 0, 0⟩, ⟨1, 1, 1⟩⟩]

/-- One concrete green-overlay mesh for witness states. -/
def sampleGreens : List OverlayInit :=
[⟨⟨0, 0, 0⟩, ⟨0, 0, 0⟩, ⟨142 / 100, 142 / 100, 142 / 100⟩⟩]

/-- One concrete matrix-overlay mesh for witness states. -/
def sampleMatrix : List OverlayInit :=
[⟨⟨0, 0, 0⟩, ⟨0, 0, 0⟩, ⟨145 / 100, 145 / 100, 145 / 100⟩⟩]

/-- A concrete freshly initialised viewer state. -/
def s0 : ViewerState := mkInit samplePieces sampleGreens sampleMatrix

/-- `s0` after a trigger at t = 0 with camera depth 6. -/
def s1 : ViewerState := explodeAllPieces m0 rand0 0 6 none s0

/-- `s1` after an immediate restart. -/
def s2 : ViewerState := ViewerState.restart s1

theorem explodeAllPieces_puzzleExploded (M : JsMath) (rand : ℕ → ℕ → ℚ)
    (now cameraZ : ℚ) (clicked : Option ℕ) (s : ViewerState) :
    (explodeAllPieces M rand now cameraZ clicked s).puzzleExploded =
      (true : Bool) := by
  unfold explodeAllPieces
  by_cases h : s.puzzleExploded <;> simp [h]

theorem explodeAllPieces_noop (M : JsMath) (rand : ℕ → ℕ → ℚ)
    (now cameraZ : ℚ) (clicked : Option ℕ) (s : ViewerState)
    (h : s.puzzleExploded = true) :
    explodeAllPieces M rand now cameraZ clicked s = s := by
  unfold explodeAllPieces
  rw [h]
  rfl

/-- C2: the trigger operation is idempotent.  While the stage is not idle
(the `puzzleExploded` flag is already set) a call of `explodeAllPieces` is
a no-op, and consequently two immediately successive trigger calls — with
arbitrary (even different) wall clocks, camera depths, random draws and
picked pieces for the second call — produce exactly the same final state
(animation assignment, timers, flags) as the first call alone. -/
theorem c2_trigger_idempotent (M1 M2 : JsMath) (r1 r2 : ℕ → ℕ → ℚ)
    (now1 now2 cz1 cz2 : ℚ) (c1 c2 : Option ℕ) (s : ViewerState) :
    (s.puzzleExploded = true →
      explodeAllPieces M2 r2 now2 cz2 c2 s = s) ∧
    explodeAllPieces M2 r2 now2 cz2 c2
        (explodeAllPieces M1 r1 now1 cz1 c1 s) =
      explodeAllPieces M1 r1 now1 cz1 c1 s := by
  constructor
  · intro h
    exact explodeAllPieces_noop M2 r2 now2 cz2 c2 s h
  · exact explodeAllPieces_noop M2 r2 now2 cz2 c2 _
      (explodeAllPieces_puzzleExploded M1 r1 now1 cz1 c1 s)

/-- Witness for C2: on the concrete exploded state `s1` a second trigger
is a no-op. -/
theorem c2_trigger_idempotent_witness :
    s1.puzzleExploded = true ∧
    explodeAllPieces m0 rand0 7 5 (some 0) s1 = s1 :=
⟨by decide,
 (c2_trigger_idempotent m0 m0 rand0 rand0 0 7 6 5 none (some 0) s1).1
   (by decide)⟩

end ViewerV12

namespace ViewerV12

/-- A concrete piece mid-stagger, as assigned by `explodeAllPieces`: its
animation record has `startTime = 100` (still in the future at `now = 0`)
and `duration = 200`. -/
def pieceBeforeStart : PieceObj :=
{ position := ⟨0, 0, 0⟩
  rotation := ⟨0, 0, 0⟩
  scale := ⟨1, 1, 1⟩
  opacity := 1
  visible := true
  originalPosition := ⟨0, 0, 0⟩
  originalRotation := ⟨0, 0, 0⟩
  originalScale := ⟨1, 1, 1⟩
  animation := some
    { startTime := 100
      duration := 200
      originalDuration := 200
      isClickedPiece := false
      startPos := ⟨0, 0, 0⟩
      startRot := ⟨0, 0, 0⟩
      targetPos := ⟨1, 0, 0⟩
      targetRot := ⟨0, 0, 0⟩
      startScale := ⟨1, 1, 1⟩
      targetScale := none } }

/-- C3 counterexample: the per-frame progress of viewer.js:1563 is
`min(elapsed / duration, 1)` with NO lower clamp — the guard for
`elapsed < 0` was deliberately removed (viewer.js:1556).  At
`startTime = 100`, `duration = 200`, `now = 0` the derived progress is
`-1/2`, not the `0` that `clamp((now - startTime)/duration, 0, 1)`
demands, and the per-frame update really acts on the piece before its
staggered start: it extrapolates the position backwards instead of
leaving it at the start transform. -/
theorem c3_counterexample :
    animProgress 100 200 0 = -(1 / 2) ∧
    specProgress 100 200 0 = 0 ∧
    animProgress 100 200 0 ≠ specProgress 100 200 0 ∧
    (updatePiece m0 1 0 pieceBeforeStart).position ≠
      pieceBeforeStart.position := by
  refine ⟨?_, ?_, ?_, ?_⟩
  · norm_num [animProgress]
  · norm_num [specProgress]
  · norm_num [animProgress, specProgress]
  · norm_num [updatePiece, pieceBeforeStart, animProgress, m0, Vec3.lerp]

/-- C3 amended: the progress derived in the v12 per-frame update is
`min((now - startTime) / duration, 1)`, clamped above but NOT below.
For a fixed `(startTime, duration)` with positive duration it is
non-decreasing in `now` and never exceeds 1, and it agrees with the
spec's `clamp((now - startTime)/duration, 0, 1)` whenever
`now ≥ startTime`; but before the staggered `startTime` it is strictly
negative rather than 0. -/
theorem c3_progress_properties (startTime duration : ℚ)
    (hd : 0 < duration) (now1 now2 : ℚ) (h12 : now1 ≤ now2) :
    animProgress startTime duration now1 ≤
      animProgress startTime duration now2 ∧
    animProgress startTime duration now1 ≤ 1 ∧
    (startTime ≤ now1 →
      animProgress startTime duration now1 =
        specProgress startTime duration now1) ∧
    (now1 < startTime → animProgress startTime duration now1 < 0) := by
  refine ⟨?_, ?_, ?_, ?_⟩
  · apply min_le_min _ le_rfl
    gcongr
  · exact min_le_right _ _
  · intro hge
    unfold animProgress specProgress
    rw [max_eq_right]
    apply le_min
    · apply div_nonneg _ (le_of_lt hd)
      linarith
    · norm_num
  · intro hlt
    unfold animProgress
    rw [min_eq_left]
    · apply div_neg_of_neg_of_pos _ hd
      linarith
    · apply le_trans (le_of_lt _) zero_le_one
      apply div_neg_of_neg_of_pos _ hd
      linarith

/-- Witness for C3 (amended) at `startTime = 0`, `duration = 200`,
`now1 = 50`, `now2 = 100`. -/
theorem c3_progress_properties_witness :
    (0 : ℚ) < 200 ∧ (50 : ℚ) ≤ 100 ∧
    (animProgress 0 200 50 ≤ animProgress 0 200 100 ∧
     animProgress 0 200 50 ≤ 1 ∧
     ((0 : ℚ) ≤ 50 → animProgress 0 200 50 = specProgress 0 200 50) ∧
     ((50 : ℚ) < 0 → animProgress 0 200 50 < 0)) :=
⟨by norm_num, by norm_num,
 c3_progress_properties 0 200 (by norm_num) 50 100 (by norm_num)⟩

/-- C4 counterexample: the concrete trigger on `s0` (speed multiplier
0.6) schedules the base-layer green reveal fade at t = 5000 (3000/0.6)
and the golden-angle secondary matrix fade/spiral at t = 7500 (4500/0.6).
The spec's secondary-overlay fade/spiral stage (`startMatrixExplosion`,
the golden-angle spiral of viewer.js:1414) therefore does NOT start
strictly before the base-layer reveal fade (`startGreenOverlayFade`, the
opacity-to-zero fade that reveals the brain, viewer.js:1390-1404): the
code runs them in the opposite order. -/
theorem c4_counterexample :
    Timer.mk 5000 TimerAction.greenFade ∈ s1.timers ∧
    Timer.mk 7500 TimerAction.matrixExplode ∈ s1.timers ∧
    ¬ ((7500 : ℚ) < 5000) := by
  refine ⟨?_, ?_, by norm_num⟩ <;>
  · simp only [s1, s0, explodeAllPieces, mkInit]
    norm_num

/-- C4 amended: a trigger from the idle stage starts the explosion
immediately and schedules the other two stages in the fixed order
explode, then base-layer green reveal fade after `3000 / mult` ms, then
secondary matrix fade/spiral after `4500 / mult` ms; in particular the
base-reveal stage always starts strictly before the secondary-fade
stage (the opposite of the claimed order), and both start strictly
after the trigger. -/
theorem c4_stage_order (M : JsMath) (rand : ℕ → ℕ → ℚ) (now cameraZ : ℚ)
    (clicked : Option ℕ) (s : ViewerState)
    (hidle : s.puzzleExploded = false)
    (hmult : 0 < s.explosionSpeedMultiplier) :
    (explodeAllPieces M rand now cameraZ clicked s).puzzleExploded = true ∧
    Timer.mk (now + 3000 / s.explosionSpeedMultiplier)
        TimerAction.greenFade ∈
      (explodeAllPieces M rand now cameraZ clicked s).timers ∧
    Timer.mk (now + 4500 / s.explosionSpeedMultiplier)
        TimerAction.matrixExplode ∈
      (explodeAllPieces M rand now cameraZ clicked s).timers ∧
    now < now + 3000 / s.explosionSpeedMultiplier ∧
    now + 3000 / s.explosionSpeedMultiplier <
      now + 4500 / s.explosionSpeedMultiplier := by
  refine ⟨explodeAllPieces_puzzleExploded M rand now cameraZ clicked s,
    ?_, ?_, ?_, ?_⟩
  · unfold explodeAllPieces
    rw [hidle]
    simp
  · unfold explodeAllPieces
    rw [hidle]
    simp
  · have h3 : 0 < 3000 / s.explosionSpeedMultiplier := by positivity
    linarith
  · have h45 : 3000 / s.explosionSpeedMultiplier <
        4500 / s.explosionSpeedMultiplier := by
      gcongr
      norm_num
    linarith

/-- Witness for C4 (amended) on the concrete idle state `s0` at trigger
time 0. -/
theorem c4_stage_order_witness :
    s0.puzzleExploded = false ∧ (0 : ℚ) < s0.explosionSpeedMultiplier ∧
    ((explodeAllPieces m0 rand0 0 6 none s0).puzzleExploded = true ∧
     Timer.mk ((0 : ℚ) + 3000 / s0.explosionSpeedMultiplier)
         TimerAction.greenFade ∈
       (explodeAllPieces m0 rand0 0 6 none s0).timers ∧
     Timer.mk ((0 : ℚ) + 4500 / s0.explosionSpeedMultiplier)
         TimerAction.matrixExplode ∈
       (explodeAllPieces m0 rand0 0 6 none s0).timers ∧
     (0 : ℚ) < 0 + 3000 / s0.explosionSpeedMultiplier ∧
     (0 : ℚ) + 3000 / s0.explosionSpeedMultiplier <
       0 + 4500 / s0.explosionSpeedMultiplier) :=
⟨by decide, by norm_num [s0, mkInit],
 c4_stage_order m0 rand0 0 6 none s0 (by decide)
   (by norm_num [s0, mkInit])⟩

/-- C6 counterexample: trigger at t = 0 on `s0` (multiplier 0.6), restart
immediately afterwards (well before the 5000ms explode delay elapses).
The green-fade timer scheduled by the trigger survives the restart —
`restart` never touches the timer list — and when it fires at t = 5000
its callback `startGreenOverlayFade` does not check the current stage:
the supposedly cancelled sequence is resurrected, `greenMelting` flips to
true even though the stage had been reset to idle. -/
theorem c6_counterexample :
    Timer.mk 5000 TimerAction.greenFade ∈ s2.timers ∧
    s2.puzzleExploded = false ∧
    s2.matrixExploding = false ∧
    s2.greenMelting = false ∧
    (fireTimer m0 rand0 (Timer.mk 5000 TimerAction.greenFade) 5000
        s2).greenMelting = true := by
  refine ⟨?_, rfl, rfl, rfl, rfl⟩
  show Timer.mk 5000 TimerAction.greenFade ∈ s1.timers
  simp only [s1, s0, explodeAllPieces, mkInit]
  norm_num

/-- C6 amended: `restart` does NOT clear the scheduled stage-transition
timers (the timer list is left untouched), and a green-fade timer firing
after a restart does act: its callback `startGreenOverlayFade` sets
`greenMelting` unconditionally, without any stage or generation check, so
a stale timer from a cancelled run resurrects the fade stage. -/
theorem c6_stale_timer_resurrects (s : ViewerState) (M : JsMath)
    (randM : ℕ → ℕ → ℚ) (tm : Timer) (now : ℚ)
    (hact : tm.action = TimerAction.greenFade) :
    s.restart.timers = s.timers ∧
    (fireTimer M randM tm now s.restart).greenMelting = true := by
  constructor
  · rfl
  · unfold fireTimer
    rw [hact]
    rfl

/-- Witness for C6 (amended): the concrete stale green-fade timer on the
restarted state `s2`. -/
theorem c6_stale_timer_resurrects_witness :
    (Timer.mk 5000 TimerAction.greenFade).action = TimerAction.greenFade ∧
    s1.restart.timers = s1.timers ∧
    (fireTimer m0 rand0 (Timer.mk 5000 TimerAction.greenFade) 5000
        s1.restart).greenMelting = true :=
⟨rfl,
 (c6_stale_timer_resurrects s1 m0 rand0
   (Timer.mk 5000 TimerAction.greenFade) 5000 rfl).1,
 (c6_stale_timer_resurrects s1 m0 rand0
   (Timer.mk 5000 TimerAction.greenFade) 5000 rfl).2⟩

end ViewerV12

namespace ViewerV12

theorem assignAnimations_getElem (M : JsMath) (rand : ℕ → ℕ → ℚ)
    (now cz mult : ℚ) (clicked : Option ℕ) (l : List PieceObj) :
    ∀ (j i : ℕ),
      (assignAnimations M rand now cz mult clicked j l)[i]? =
        (l[i]?).map fun p =>
          if clicked = some (j + i) then
            { p with animation := some (clickedAnimRecord now cz mult p) }
          else
            { p with animation := some (normalAnimRecord M rand now mult (j + i) p) } := by
  induction l with
  | nil => intro j i; simp [assignAnimations]
  | cons p ps ih =>
    intro j i
    cases i with
    | zero => simp [assignAnimations]
    | succ i =>
      have h := ih (j + 1) i
      have harith : j + (i + 1) = j + 1 + i := by omega
      simp only [assignAnimations, List.getElem?_cons_succ, harith]
      exact h

theorem updatePiece_clicked_keeps (M : JsMath) (mult now : ℚ)
    (p : PieceObj) (a : AnimRecord) (hanim : p.animation = some a)
    (hc : a.isClickedPiece = true) :
    (updatePiece M mult now p).opacity = 1 ∧
    (updatePiece M mult now p).visible = p.visible := by
  unfold updatePiece
  rw [hanim]
  simp only [ne_eq]
  split_ifs <;>
    first
    | exact ⟨rfl, rfl⟩
    | exact absurd hc (by assumption)

/-- C9 counterexample: a trigger click that hits piece 0 of the concrete
two-piece state `s0` does NOT give that piece the feature animation —
`handleClick` raycasts, finds the hit, but calls `explodeAllPieces()` with
no argument (viewer.js:1299-1302), so every piece, the picked one
included, gets the randomized outward explosion record
(`isClickedPiece` absent/false), no piece is recorded as clicked, and at a
late frame the picked piece has faded out and been made invisible —
contradicting "moves toward the viewpoint, scales up, and does not fade
or become invisible". -/
theorem c9_counterexample :
    ((handleClick m0 rand0 0 6 (some 0) s0).jigsawPieces.map fun p =>
        p.animation.map fun a => a.isClickedPiece) =
      [some false, some false] ∧
    (handleClick m0 rand0 0 6 (some 0) s0).clickedPiece = none ∧
    ((animateFrame m0 1000000
        (handleClick m0 rand0 0 6 (some 0) s0)).jigsawPieces.map
      fun p => p.visible) = [false, false] := by
  refine ⟨rfl, rfl, ?_⟩
  simp [handleClick, s0, mkInit, explodeAllPieces, animateFrame,
    samplePieces, sampleGreens, sampleMatrix, assignAnimations,
    normalAnimRecord, updatePiece, animProgress, initPiece, rand0, m0,
    clickedAnimRecord]
  norm_num [min_def]

/-- C9 amended: the feature path exists only for direct calls of
`explodeAllPieces` with a picked piece: that piece then gets the
`isClickedPiece` record — target position pulled to the viewpoint at
`(0, 0, cameraZ - 2)`, target scale 20× its current scale — and the
per-frame update keeps its opacity pinned at 1 and never hides it.  The
click handler, however, always invokes `explodeAllPieces` with NO picked
piece, so a trigger click never produces the feature animation for the
hit piece. -/
theorem c9_feature_path (M : JsMath) (rand : ℕ → ℕ → ℚ)
    (now cz : ℚ) (i : ℕ) (s : ViewerState) (p : PieceObj)
    (hidle : s.puzzleExploded = false)
    (hp : s.jigsawPieces[i]? = some p) :
    (∃ q : PieceObj,
      (explodeAllPieces M rand now cz (some i) s).jigsawPieces[i]? =
        some q ∧
      q.animation = some (clickedAnimRecord now cz
        s.explosionSpeedMultiplier p) ∧
      (clickedAnimRecord now cz s.explosionSpeedMultiplier
        p).isClickedPiece = true ∧
      (clickedAnimRecord now cz s.explosionSpeedMultiplier p).targetPos =
        ⟨0, 0, cz - 2⟩ ∧
      (clickedAnimRecord now cz s.explosionSpeedMultiplier p).targetScale =
        some (p.scale.smul 20) ∧
      ∀ (M2 : JsMath) (mult2 now2 : ℚ),
        (updatePiece M2 mult2 now2 q).opacity = 1 ∧
        (updatePiece M2 mult2 now2 q).visible = q.visible) ∧
    handleClick M rand now cz (some i) s =
      explodeAllPieces M rand now cz none s := by
  constructor
  · refine ⟨{ p with animation := some (clickedAnimRecord now cz
      s.explosionSpeedMultiplier p) }, ?_, rfl, rfl, rfl, rfl, ?_⟩
    · unfold explodeAllPieces
      rw [hidle]
      show (assignAnimations M rand now cz s.explosionSpeedMultiplier
        (some i) 0 s.jigsawPieces)[i]? = _
      rw [assignAnimations_getElem, hp]
      simp
    · intro M2 mult2 now2
      exact updatePiece_clicked_keeps M2 mult2 now2 _
        (clickedAnimRecord now cz s.explosionSpeedMultiplier p) rfl rfl
  · unfold handleClick
    rw [hidle]
    rfl

/-- Witness for C9 (amended): a direct `explodeAllPieces` call picking
piece 0 of the concrete state `s0`. -/
theorem c9_feature_path_witness :
    s0.puzzleExploded = false ∧
    s0.jigsawPieces[0]? = some (initPiece ⟨⟨0, 0, 0⟩, ⟨0, 0, 0⟩, ⟨1, 1, 1⟩⟩) ∧
    ((∃ q : PieceObj,
      (explodeAllPieces m0 rand0 0 6 (some 0) s0).jigsawPieces[0]? =
        some q ∧
      q.animation = some (clickedAnimRecord 0 6 s0.explosionSpeedMultiplier
        (initPiece ⟨⟨0, 0, 0⟩, ⟨0, 0, 0⟩, ⟨1, 1, 1⟩⟩)) ∧
      (clickedAnimRecord 0 6 s0.explosionSpeedMultiplier
        (initPiece ⟨⟨0, 0, 0⟩, ⟨0, 0, 0⟩, ⟨1, 1, 1⟩⟩)).isClickedPiece =
        true ∧
      (clickedAnimRecord 0 6 s0.explosionSpeedMultiplier
        (initPiece ⟨⟨0, 0, 0⟩, ⟨0, 0, 0⟩, ⟨1, 1, 1⟩⟩)).targetPos =
        ⟨0, 0, (6 : ℚ) - 2⟩ ∧
      (clickedAnimRecord 0 6 s0.explosionSpeedMultiplier
        (initPiece ⟨⟨0, 0, 0⟩, ⟨0, 0, 0⟩, ⟨1, 1, 1⟩⟩)).targetScale =
        some ((initPiece ⟨⟨0, 0, 0⟩, ⟨0, 0, 0⟩, ⟨1, 1, 1⟩⟩).scale.smul 20) ∧
      ∀ (M2 : JsMath) (mult2 now2 : ℚ),
        (updatePiece M2 mult2 now2 q).opacity = 1 ∧
        (updatePiece M2 mult2 now2 q).visible = q.visible) ∧
    handleClick m0 rand0 0 6 (some 0) s0 =
      explodeAllPieces m0 rand0 0 6 none s0) :=
⟨rfl, rfl,
 c9_feature_path m0 rand0 0 6 0 s0
   (initPiece ⟨⟨0, 0, 0⟩, ⟨0, 0, 0⟩, ⟨1, 1, 1⟩⟩) rfl rfl⟩

end ViewerV12

namespace ViewerV12

/-- The `userData.original*` clones of a piece, the data `restart` restores
from. -/
def origTriple (p : PieceObj) : Vec3 × Vec3 × Vec3 :=
(p.originalPosition, p.originalRotation, p.originalScale)

/-- The visible state of a piece the restart-fidelity claim talks about:
position, rotation, scale, opacity, visibility. -/
def pieceVisState (p : PieceObj) : Vec3 × Vec3 × Vec3 × ℚ × Bool :=
(p.position, p.rotation, p.scale, p.opacity, p.visible)

/-- The visible state of a green-overlay mesh. -/
def greenVisState (m : GreenMesh) : Vec3 × Vec3 × Vec3 × ℚ × Bool :=
(m.position, m.rotation, m.scale, m.opacityUniform, m.visible)

/-- The visible state of a matrix-overlay mesh. -/
def matrixVisState (m : MatrixMesh) : Vec3 × Vec3 × Vec3 × ℚ × Bool :=
(m.position, m.rotation, m.scale, m.opacity, m.visible)

/-- Relation between an initial green mesh and a current one: the
geometry never moves and any captured `greenMelt` record holds the
original position. -/
def GreenInv (m0 m : GreenMesh) : Prop :=
m.position = m0.position ∧ m.rotation = m0.rotation ∧
m.scale = m0.scale ∧
(m.greenMelt = none ∨
  ∃ gm : GreenMelt, m.greenMelt = some gm ∧ gm.startPos = m0.position)

/-- Relation between an initial matrix mesh and a current one: the
geometry never moves. -/
def MatrixInv (m0 m : MatrixMesh) : Prop :=
m.position = m0.position ∧ m.rotation = m0.rotation ∧ m.scale = m0.scale

/-- The state invariant backing restart fidelity: the pieces' stored
originals never change, green meshes never move and their melt records
point at the original position, matrix meshes never move. -/
def Inv (s0 s : ViewerState) : Prop :=
s.jigsawPieces.map origTriple = s0.jigsawPieces.map origTriple ∧
List.Forall₂ GreenInv s0.greenOverlay s.greenOverlay ∧
List.Forall₂ MatrixInv s0.matrixOverlay s.matrixOverlay

theorem forallTwo_map_preserve {α : Type} {R : α → α → Prop} {f : α → α}
    (hf : ∀ a b, R a b → R a (f b)) :
    ∀ {l1 l2 : List α}, List.Forall₂ R l1 l2 →
      List.Forall₂ R l1 (l2.map f) := by
  intro l1 l2 h
  induction h with
  | nil => exact List.Forall₂.nil
  | cons hab _ ih => exact List.Forall₂.cons (hf _ _ hab) ih

theorem forallTwo_map_eq {α β γ : Type} {R : α → β → Prop} {f : α → γ}
    {g : β → γ} (hfg : ∀ a b, R a b → f a = g b) :
    ∀ {l1 l2}, List.Forall₂ R l1 l2 → l1.map f = l2.map g := by
  intro l1 l2 h
  induction h with
  | nil => rfl
  | cons hab _ ih =>
    simp only [List.map_cons]
    rw [hfg _ _ hab, ih]

theorem origTriple_assignAnimations (M : JsMath) (rand : ℕ → ℕ → ℚ)
    (now cz mult : ℚ) (clicked : Option ℕ) :
    ∀ (j : ℕ) (l : List PieceObj),
      (assignAnimations M rand now cz mult clicked j l).map origTriple =
        l.map origTriple := by
  intro j l
  induction l generalizing j with
  | nil => rfl
  | cons p ps ih =>
    by_cases h : clicked = some j
    · simp only [assignAnimations, if_pos h, List.map_cons, ih (j + 1),
        origTriple]
    · simp only [assignAnimations, if_neg h, List.map_cons, ih (j + 1),
        origTriple]

theorem origTriple_updatePiece (M : JsMath) (mult now : ℚ)
    (p : PieceObj) :
    origTriple (updatePiece M mult now p) = origTriple p := by
  unfold updatePiece
  rcases p.animation with _ | a
  · rfl
  · simp only [ne_eq]
    split_ifs <;> rfl

theorem origTriple_setSpeedPiece (mult : ℚ) (p : PieceObj) :
    origTriple (match p.animation with
      | none => p
      | some anim =>
        let od := if anim.originalDuration ≠ 0 then anim.originalDuration
          else anim.duration
        { p with animation := some (
            { anim with originalDuration := od, duration := od / mult }) })
      = origTriple p := by
  rcases p.animation with _ | a <;> rfl

theorem inv_init (ps : List PieceInit) (gs ms : List OverlayInit) :
    Inv (mkInit ps gs ms) (mkInit ps gs ms) := by
  refine ⟨rfl, ?_, ?_⟩
  · rw [List.forall₂_same]
    intro m hm
    rcases List.mem_map.mp hm with ⟨oi, _, rfl⟩
    exact ⟨rfl, rfl, rfl, Or.inl rfl⟩
  · rw [List.forall₂_same]
    intro m _
    exact ⟨rfl, rfl, rfl⟩

end ViewerV12

namespace ViewerV12

theorem inv_explode (s0 : ViewerState) {t : ViewerState} (h : Inv s0 t)
    (M : JsMath) (rand : ℕ → ℕ → ℚ) (now cz : ℚ) (clicked : Option ℕ) :
    Inv s0 (explodeAllPieces M rand now cz clicked t) := by
  unfold explodeAllPieces
  by_cases hx : t.puzzleExploded
  · simp only [hx, if_true]
    exact h
  · simp only [hx, Bool.false_eq_true, if_false]
    exact ⟨by rw [origTriple_assignAnimations]; exact h.1, h.2.1, h.2.2⟩

theorem inv_handleClick (s0 : ViewerState) {t : ViewerState}
    (h : Inv s0 t) (M : JsMath) (rand : ℕ → ℕ → ℚ) (now cz : ℚ)
    (hit : Option ℕ) : Inv s0 (handleClick M rand now cz hit t) := by
  unfold handleClick
  by_cases hx : t.puzzleExploded
  · simp only [hx, if_true]
    exact h
  · simp only [hx, Bool.false_eq_true, if_false]
    cases hit with
    | none => exact h
    | some i => exact inv_explode s0 h M rand now cz none

theorem inv_greenFade (s0 : ViewerState) {t : ViewerState}
    (h : Inv s0 t) (now : ℚ) : Inv s0 (startGreenOverlayFade now t) := by
  refine ⟨h.1, ?_, h.2.2⟩
  refine forallTwo_map_preserve ?_ h.2.1
  intro a b hab
  rcases b with ⟨bp, br, bs, bo, bv, bm⟩
  cases bm with
  | none => exact ⟨hab.1, hab.2.1, hab.2.2.1, Or.inr ⟨⟨bp, 85 / 100⟩, rfl, hab.1⟩⟩
  | some gm => exact hab

theorem forallTwo_assignMatrix (M : JsMath) (randM : ℕ → ℕ → ℚ) :
    ∀ (j : ℕ) {l1 l2 : List MatrixMesh},
      List.Forall₂ MatrixInv l1 l2 →
      List.Forall₂ MatrixInv l1 (assignMatrixAnims M randM j l2) := by
  intro j l1 l2 h
  induction h generalizing j with
  | nil => exact List.Forall₂.nil
  | cons hab _ ih => exact List.Forall₂.cons hab (ih (j + 1))

theorem inv_matrixExplode (s0 : ViewerState) {t : ViewerState}
    (h : Inv s0 t) (M : JsMath) (randM : ℕ → ℕ → ℚ) (now : ℚ) :
    Inv s0 (startMatrixExplosion M randM now t) :=
⟨h.1, h.2.1, forallTwo_assignMatrix M randM 0 h.2.2⟩

theorem inv_fireTimer (s0 : ViewerState) {t : ViewerState}
    (h : Inv s0 t) (M : JsMath) (randM : ℕ → ℕ → ℚ) (tm : Timer)
    (now : ℚ) : Inv s0 (fireTimer M randM tm now t) := by
  unfold fireTimer
  cases tm.action with
  | greenFade => exact inv_greenFade s0 ⟨h.1, h.2.1, h.2.2⟩ now
  | matrixExplode => exact inv_matrixExplode s0 ⟨h.1, h.2.1, h.2.2⟩ M randM now

theorem inv_animateFrame (s0 : ViewerState) {t : ViewerState}
    (h : Inv s0 t) (M : JsMath) (now : ℚ) :
    Inv s0 (animateFrame M now t) := by
  refine ⟨?_, ?_, ?_⟩
  · show (if t.puzzleExploded = true then _ else t.jigsawPieces).map
      origTriple = _
    by_cases hx : t.puzzleExploded
    · simp only [hx, if_true, List.map_map]
      have hcongr : List.map
          (origTriple ∘ updatePiece M t.explosionSpeedMultiplier now)
          t.jigsawPieces = List.map origTriple t.jigsawPieces :=
        List.map_congr_left (fun p _ =>
          origTriple_updatePiece M t.explosionSpeedMultiplier now p)
      rw [hcongr]
      exact h.1
    · simp only [hx, Bool.false_eq_true, if_false]
      exact h.1
  · show List.Forall₂ GreenInv s0.greenOverlay
      (if t.greenMelting = true then _ else t.greenOverlay)
    by_cases hx : t.greenMelting
    · simp only [hx, if_true]
      refine forallTwo_map_preserve ?_ h.2.1
      intro a b hab
      rcases b with ⟨bp, br, bs, bo, bv, bm⟩
      cases bm with
      | none => exact hab
      | some gm => exact hab
    · simp only [hx, Bool.false_eq_true, if_false]
      exact h.2.1
  · show List.Forall₂ MatrixInv s0.matrixOverlay
      (if t.matrixExploding = true then _ else t.matrixOverlay)
    by_cases hx : t.matrixExploding
    · simp only [hx, if_true]
      refine forallTwo_map_preserve ?_ h.2.2
      intro a b hab
      exact hab
    · simp only [hx, Bool.false_eq_true, if_false]
      exact h.2.2

theorem inv_restart (s0 : ViewerState) {t : ViewerState} (h : Inv s0 t) :
    Inv s0 t.restart := by
  refine ⟨?_, ?_, ?_⟩
  · have hre : t.restart.jigsawPieces = t.jigsawPieces.map (fun p => { p with visible := true, animation := none, position := p.originalPosition, rotation := p.originalRotation, scale := p.originalScale, opacity := 1 }) := rfl
    rw [hre, List.map_map]
    have hcongr : List.map (origTriple ∘ (fun p => ({ p with visible := true, animation := none, position := p.originalPosition, rotation := p.originalRotation, scale := p.originalScale, opacity := 1 } : PieceObj))) t.jigsawPieces = List.map origTriple t.jigsawPieces :=
      List.map_congr_left (fun p _ => rfl)
    rw [hcongr]
    exact h.1
  · refine forallTwo_map_preserve ?_ h.2.1
    intro a b hab
    rcases b with ⟨bp, br, bs, bo, bv, bm⟩
    cases bm with
    | none => exact ⟨hab.1, hab.2.1, hab.2.2.1, hab.2.2.2⟩
    | some gm =>
      rcases hab.2.2.2 with hnone | ⟨gm2, hsome, hstart⟩
      · exact absurd hnone (by simp)
      · have hg : gm = gm2 := by
          have := hsome
          simp only [Option.some.injEq] at this
          exact this
        refine ⟨?_, hab.2.1, hab.2.2.1, Or.inr ⟨gm, rfl, ?_⟩⟩
        · rw [hg]
          exact hstart
        · rw [hg]
          exact hstart
  · refine forallTwo_map_preserve ?_ h.2.2
    intro a b hab
    exact hab

theorem inv_setSpeed (s0 : ViewerState) {t : ViewerState} (h : Inv s0 t)
    (mult : ℚ) : Inv s0 (setSpeed mult t) := by
  refine ⟨?_, h.2.1, h.2.2⟩
  show (if t.puzzleExploded = true then _ else t.jigsawPieces).map
    origTriple = _
  by_cases hx : t.puzzleExploded
  · simp only [hx, if_true, List.map_map]
    have hcongr : List.map (origTriple ∘ (fun p =>
        match p.animation with
        | none => p
        | some anim =>
          let od := if anim.originalDuration ≠ 0 then anim.originalDuration
            else anim.duration
          { p with animation := some (
              { anim with originalDuration := od, duration := od / mult }) }))
        t.jigsawPieces = List.map origTriple t.jigsawPieces :=
      List.map_congr_left (fun p _ => origTriple_setSpeedPiece mult p)
    rw [hcongr]
    exact h.1
  · simp only [hx, Bool.false_eq_true, if_false]
    exact h.1

theorem reach_inv (ps : List PieceInit) (gs ms : List OverlayInit)
    (s : ViewerState) (h : Reach (mkInit ps gs ms) s) :
    Inv (mkInit ps gs ms) s := by
  have key : ∀ (u v : ViewerState), Reach u v → u = mkInit ps gs ms →
      Inv (mkInit ps gs ms) v := by
    intro u v hr
    induction hr with
    | refl w =>
      intro he
      rw [he]
      exact inv_init ps gs ms
    | click M rand now cz hit _ ih =>
      intro he
      exact inv_handleClick _ (ih he) M rand now cz hit
    | explode M rand now cz clicked _ ih =>
      intro he
      exact inv_explode _ (ih he) M rand now cz clicked
    | timer M randM tm now _ _ _ ih =>
      intro he
      exact inv_fireTimer _ (ih he) M randM tm now
    | frame M now _ ih =>
      intro he
      exact inv_animateFrame _ (ih he) M now
    | restartStep _ ih =>
      intro he
      exact inv_restart _ (ih he)
    | speed mult _ ih =>
      intro he
      exact inv_setSpeed _ (ih he) mult
  exact key _ _ h rfl

end ViewerV12

namespace ViewerV12

/-- C5: after `restart()` is called on any state reachable from a freshly
initialised viewer — any stage, including mid-animation — every piece and
every overlay mesh has position, rotation, scale, opacity and visibility
exactly equal to its pre-trigger original value, every per-piece animation
record is cleared, and all three stage flags are false (the sequencer is
idle). -/
theorem c5_restart_fidelity (ps : List PieceInit) (gs ms : List OverlayInit)
    (s : ViewerState) (h : Reach (mkInit ps gs ms) s) :
    s.restart.puzzleExploded = false ∧
    s.restart.matrixExploding = false ∧
    s.restart.greenMelting = false ∧
    s.restart.jigsawPieces.map pieceVisState =
      (mkInit ps gs ms).jigsawPieces.map pieceVisState ∧
    s.restart.jigsawPieces.map (fun p => p.animation) =
      List.replicate (mkInit ps gs ms).jigsawPieces.length none ∧
    s.restart.greenOverlay.map greenVisState =
      (mkInit ps gs ms).greenOverlay.map greenVisState ∧
    s.restart.matrixOverlay.map matrixVisState =
      (mkInit ps gs ms).matrixOverlay.map matrixVisState := by
  have hinv := reach_inv ps gs ms s h
  refine ⟨rfl, rfl, rfl, ?_, ?_, ?_, ?_⟩
  · have hre : s.restart.jigsawPieces = s.jigsawPieces.map (fun p => { p with visible := true, animation := none, position := p.originalPosition, rotation := p.originalRotation, scale := p.originalScale, opacity := 1 }) := rfl
    rw [hre, List.map_map]
    have h1 : List.map (pieceVisState ∘ (fun p => ({ p with visible := true, animation := none, position := p.originalPosition, rotation := p.originalRotation, scale := p.originalScale, opacity := 1 } : PieceObj))) s.jigsawPieces = List.map (fun p => (p.originalPosition, p.originalRotation, p.originalScale, (1 : ℚ), true)) s.jigsawPieces :=
      List.map_congr_left (fun p _ => rfl)
    rw [h1]
    have h2 : List.map (fun p => (p.originalPosition, p.originalRotation, p.originalScale, (1 : ℚ), true)) s.jigsawPieces = (s.jigsawPieces.map origTriple).map (fun tr => (tr.1, tr.2.1, tr.2.2, (1 : ℚ), true)) := by
      rw [List.map_map]
      exact (List.map_congr_left (fun p _ => rfl)).symm
    rw [h2, hinv.1, List.map_map]
    refine List.map_congr_left ?_
    intro p hp
    rcases List.mem_map.mp hp with ⟨pi, _, rfl⟩
    rfl
  · have hre : s.restart.jigsawPieces = s.jigsawPieces.map (fun p => { p with visible := true, animation := none, position := p.originalPosition, rotation := p.originalRotation, scale := p.originalScale, opacity := 1 }) := rfl
    rw [hre, List.map_map]
    have hconst : List.map ((fun p => p.animation) ∘ (fun p => ({ p with visible := true, animation := none, position := p.originalPosition, rotation := p.originalRotation, scale := p.originalScale, opacity := 1 } : PieceObj))) s.jigsawPieces = List.map (fun _ => (none : Option AnimRecord)) s.jigsawPieces :=
      List.map_congr_left (fun p _ => rfl)
    rw [hconst, List.map_const']
    have hlen : s.jigsawPieces.length = (mkInit ps gs ms).jigsawPieces.length := by
      have hc := congrArg List.length hinv.1
      simpa using hc
    rw [hlen]
  · have hre : s.restart.greenOverlay = s.greenOverlay.map (fun m => { m with visible := true, opacityUniform := 85 / 100, position := match m.greenMelt with | some gm => gm.startPos | none => m.position }) := rfl
    rw [hre, List.map_map]
    have hfg2 : ∀ (a b : GreenMesh), GreenInv a b →
        (a.position, a.rotation, a.scale, (85 / 100 : ℚ), true) =
        (greenVisState ∘ (fun m => ({ m with visible := true, opacityUniform := 85 / 100, position := match m.greenMelt with | some gm => gm.startPos | none => m.position } : GreenMesh))) b := by
      intro a b hab
      rcases b with ⟨bp, br, bs, bo, bv, bm⟩
      cases bm with
      | none =>
        simp only [Function.comp_apply, greenVisState]
        rw [show bp = a.position from hab.1,
          show br = a.rotation from hab.2.1,
          show bs = a.scale from hab.2.2.1]
      | some gm =>
        rcases hab.2.2.2 with hnone | ⟨gm2, hsome, hstart⟩
        · exact absurd hnone (by simp)
        · have hg : gm = gm2 := by simpa using hsome
          simp only [Function.comp_apply, greenVisState]
          rw [show br = a.rotation from hab.2.1,
            show bs = a.scale from hab.2.2.1, hg,
            show gm2.startPos = a.position from hstart]
    have heq : (mkInit ps gs ms).greenOverlay.map (fun a => (a.position, a.rotation, a.scale, (85 / 100 : ℚ), true)) = s.greenOverlay.map (greenVisState ∘ (fun m => ({ m with visible := true, opacityUniform := 85 / 100, position := match m.greenMelt with | some gm => gm.startPos | none => m.position } : GreenMesh))) :=
      forallTwo_map_eq hfg2 hinv.2.1
    rw [← heq]
    refine (List.map_congr_left ?_).symm
    intro m hm
    rcases List.mem_map.mp hm with ⟨oi, _, rfl⟩
    rfl
  · have hre : s.restart.matrixOverlay = s.matrixOverlay.map (fun m => { m with visible := true, opacity := 9 / 10 }) := rfl
    rw [hre, List.map_map]
    have hfg2 : ∀ (a b : MatrixMesh), MatrixInv a b →
        (a.position, a.rotation, a.scale, (9 / 10 : ℚ), true) =
        (matrixVisState ∘ (fun m => ({ m with visible := true, opacity := 9 / 10 } : MatrixMesh))) b := by
      intro a b hab
      simp only [Function.comp_apply, matrixVisState]
      rw [hab.1, hab.2.1, hab.2.2]
    have heq : (mkInit ps gs ms).matrixOverlay.map (fun a => (a.position, a.rotation, a.scale, (9 / 10 : ℚ), true)) = s.matrixOverlay.map (matrixVisState ∘ (fun m => ({ m with visible := true, opacity := 9 / 10 } : MatrixMesh))) :=
      forallTwo_map_eq hfg2 hinv.2.2
    rw [← heq]
    refine (List.map_congr_left ?_).symm
    intro m hm
    rcases List.mem_map.mp hm with ⟨oi, _, rfl⟩
    rfl

/-- Witness for C5: restarting the freshly initialised concrete state
(reachable via the empty step sequence). -/
theorem c5_restart_fidelity_witness :
    s0.restart.puzzleExploded = false ∧
    s0.restart.matrixExploding = false ∧
    s0.restart.greenMelting = false ∧
    s0.restart.jigsawPieces.map pieceVisState =
      (mkInit samplePieces sampleGreens sampleMatrix).jigsawPieces.map
        pieceVisState ∧
    s0.restart.jigsawPieces.map (fun p => p.animation) =
      List.replicate
        (mkInit samplePieces sampleGreens sampleMatrix).jigsawPieces.length
        none ∧
    s0.restart.greenOverlay.map greenVisState =
      (mkInit samplePieces sampleGreens sampleMatrix).greenOverlay.map
        greenVisState ∧
    s0.restart.matrixOverlay.map matrixVisState =
      (mkInit samplePieces sampleGreens sampleMatrix).matrixOverlay.map
        matrixVisState :=
c5_restart_fidelity samplePieces sampleGreens sampleMatrix s0
  (Reach.refl s0)

end ViewerV12
